import Mathlib

/-!
Shallow embedding of the connect-cosmosdb session store (src/index.ts).

The module exports a class CosmosStore with static configuration state
(options, _store singleton), a private constructor, a static
initializeStore factory, a static reset, and the express-session
operations get/set/destroy/all/length/clear/touch plus a private
getTTL helper.

Modelling choices:
- The Cosmos client and its handles are external collaborators; each
  operation records the requests it issues to the backing store as a
  list of StoreEffect values, and the outcomes of those requests
  (success or thrown error) are supplied as OpResult oracle arguments.
- Callback invocations visible to the caller are recorded as a list of
  CallbackCall values; the default no-op callback used when the caller
  passes none swallows its arguments, so calls to it are not recorded.
- Epoch times are integers (milliseconds). Math.ceil over an exact
  quotient is modelled with the rational ceiling, exact for the
  magnitudes a session timestamp can take.
- JavaScript truthiness is modelled explicitly where the source relies
  on it: a number is falsy exactly when it is 0, a string exactly when
  it is empty, undefined (Option.none) is falsy, functions are truthy.
-/

namespace ConnectCosmos

/-- The cookie sub-object of an express-session record: an optional
expiry timestamp in epoch milliseconds and an optional originalMaxAge. -/
structure Cookie where
  originalMaxAge : Option Int
  expires : Option Int
  deriving DecidableEq, Repr

/-- A session record: an optional cookie, an optional own id field
(arbitrary JSON objects may carry one), and the remaining fields
kept abstract as key-value pairs. -/
structure SessionData where
  cookie : Option Cookie
  id : Option String
  rest : List (String × String)
  deriving DecidableEq, Repr

/-- The configured TTL policy: a fixed number of seconds or a function
from the session record to a number of seconds. -/
inductive TTLPolicy where
  | fixed (n : Int)
  | fn (f : SessionData → Int)

/-- An abstract handle standing for a CosmosClient instance. -/
abbrev CosmosClient := Nat

/-- The options argument of initializeStore. cosmosClient is Option
because the source guards against a nullish client value at run time;
the other optional fields mirror the optional properties of the
CosmosStoreOptions interface. -/
structure CosmosStoreOptions where
  cosmosClient : Option CosmosClient
  databaseName : String
  containerName : Option String
  ttl : Option TTLPolicy
  disableTouch : Option Bool

def DEFAULT_CONTAINER_NAME : String := "sessions"

def DEFAULT_TTL : Int := 86400

def PARTITION_KEY_PATH : String := "/id"

/-- The captured static options object, Required of CosmosStoreOptions:
every field present after updateOptions has run. -/
structure StoreOptions where
  cosmosClient : CosmosClient
  containerName : String
  databaseName : String
  disableTouch : Bool
  ttl : TTLPolicy

/-- JavaScript truthiness of a number-or-function ttl value: 0 is
falsy, every other number is truthy, a function is truthy. -/
def TTLPolicy.jsTruthy : TTLPolicy → Bool
  | .fixed n => n != 0
  | .fn _ => true

/-- The JavaScript expression (x or d) for an optional ttl value x. -/
def jsOrTTL (x : Option TTLPolicy) (d : TTLPolicy) : TTLPolicy :=
  match x with
  | some p => if p.jsTruthy then p else d
  | none => d

/-- The JavaScript expression (x or d) for an optional string x: the
empty string is falsy. -/
def jsOrString (x : Option String) (d : String) : String :=
  match x with
  | some s => if s != "" then s else d
  | none => d

/-- CosmosStore.updateOptions: captures the static options from the
caller-supplied options, substituting defaults for falsy values.
The client argument is the truthy cosmosClient that initializeStore
validated before calling updateOptions. -/
def updateOptions (options : CosmosStoreOptions) (client : CosmosClient) :
    StoreOptions :=
  { cosmosClient := client
    containerName := jsOrString options.containerName DEFAULT_CONTAINER_NAME
    databaseName := options.databaseName
    disableTouch := options.disableTouch.getD false
    ttl := jsOrTTL options.ttl (.fixed DEFAULT_TTL) }

/-- A store instance; instances are distinguished by an identity tag
standing for JavaScript object identity. -/
structure CosmosStore where
  instanceId : Nat
  deriving DecidableEq, Repr

/-- The static (process-wide) state of the class: the captured options
(none models the initial empty object), the singleton reference, and a
fresh-identity counter for newly constructed objects. -/
structure StaticState where
  options : Option StoreOptions
  store : Option CosmosStore
  nextId : Nat

/-- The private constructor: throws if the singleton already exists or
if no configuration has been captured yet (options.cosmosClient is
undefined on the empty options object); otherwise yields a fresh
instance. -/
def construct (s : StaticState) : Except String (CosmosStore × StaticState) :=
  if s.store.isSome then
    .error "Cosmos Store has already been initialized. Please use CosmosStore.initializeStore()"
  else if s.options.isNone then
    .error "Cannot initialize Cosmos Store. Please use CosmosStore.initializeStore()"
  else
    .ok ({ instanceId := s.nextId }, { s with nextId := s.nextId + 1 })

/-- CosmosStore.initializeStore: validates the options, returns the
existing singleton when one exists, otherwise captures options,
constructs the singleton and stores it. Provisioning (setup) only
touches the external database, not the static state. -/
def initializeStore (options : CosmosStoreOptions) (s : StaticState) :
    Except String (CosmosStore × StaticState) :=
  match options.cosmosClient with
  | none => .error "Cosmos DB Client is required."
  | some client =>
    if options.databaseName = "" then
      .error "Database name is required"
    else
      match s.store with
      | some st => .ok (st, s)
      | none =>
        let s1 : StaticState := { s with options := some (updateOptions options client) }
        match construct s1 with
        | .error e => .error e
        | .ok (st, s2) => .ok (st, { s2 with store := some st })

/-- CosmosStore.reset: clears the singleton reference and the captured
options. -/
def reset (s : StaticState) : StaticState :=
  { s with store := none, options := none }

/-- Math.ceil (a / b) for a positive integer b, written as an
executable integer ceiling division (integer division here rounds
toward negative infinity for a positive divisor, so negating twice
yields the ceiling; mathCeilDiv_eq_ceil below proves this equals the
exact rational ceiling). -/
def mathCeilDiv (a b : Int) : Int := -(-a / b)

/-- CosmosStore.getTTL: function policy wins; else an expiry-derived
ceiling in seconds when cookie.expires is present; else the fixed
configured number. -/
def getTTL (options : StoreOptions) (now : Int) (session : SessionData) : Int :=
  match options.ttl with
  | .fn f => f session
  | .fixed n =>
    match session.cookie with
    | some cookie =>
      match cookie.expires with
      | some expires => mathCeilDiv (expires - now) 1000
      | none => n
    | none => n

/-- A document as persisted in the container: the id resulting from
the spread, the session fields carried over, and an optional ttl
field. -/
structure Item where
  id : String
  cookie : Option Cookie
  rest : List (String × String)
  ttl : Option Int
  deriving DecidableEq, Repr

/-- The object literal of set, id set to sid then the session spread
over it: a later key wins, so an own id field of the session record
overrides sid. -/
def mkSessionItem (sid : String) (session : SessionData) : Item :=
  { id := session.id.getD sid
    cookie := session.cookie
    rest := session.rest
    ttl := none }

/-- A request issued to the backing store by an operation. -/
inductive StoreEffect where
  | upsert (item : Item)
  | create (item : Item)
  | deleteItem (id : String)
  | patch (id : String) (path : String) (value : Int)
  deriving DecidableEq, Repr

/-- The outcome of one backing-store request: the promise resolved, or
it rejected with an error that the try block catches. -/
inductive OpResult where
  | success
  | failure (err : String)
  deriving DecidableEq, Repr

/-- An invocation of the callback the caller passed to an operation. -/
inductive CallbackCall where
  | withError (err : String)
  | noArgs
  deriving DecidableEq, Repr

/-- CosmosStore.destroy: issues a point delete; the callback is
invoked with the error only in the catch branch, and not at all when
the delete succeeds. -/
def destroy (sid : String) (deleteResult : OpResult) :
    List StoreEffect × List CallbackCall :=
  match deleteResult with
  | .success => ([.deleteItem sid], [])
  | .failure e => ([.deleteItem sid], [.withError e])

/-- CosmosStore.set: computes the TTL, then branches on its JavaScript
truthiness (nonzero): a truthy TTL that is at most 0 redirects to
destroy (called with the default no-op callback, so the caller
callback list on that path is empty), a positive TTL upserts the item
with a ttl field, and a falsy TTL (exactly 0, standing in for the
undefined case the author intended) creates the item with no ttl
field. The caller callback fires only from the catch branch. -/
def set (options : StoreOptions) (now : Int) (sid : String)
    (session : SessionData) (writeResult deleteResult : OpResult) :
    List StoreEffect × List CallbackCall :=
  let currentTTL := getTTL options now session
  let sessionItem := mkSessionItem sid session
  if currentTTL ≠ 0 then
    if currentTTL ≤ 0 then
      ((destroy sid deleteResult).1, [])
    else
      match writeResult with
      | .success => ([.upsert { sessionItem with ttl := some currentTTL }], [])
      | .failure e => ([.upsert { sessionItem with ttl := some currentTTL }], [.withError e])
  else
    match writeResult with
    | .success => ([.create sessionItem], [])
    | .failure e => ([.create sessionItem], [.withError e])

/-- CosmosStore.touch: returns immediately via the callback when touch
is disabled; otherwise issues a single patch replacing the ttl path
with the freshly recomputed TTL and invokes the callback with no
arguments whether the patch succeeded or threw. -/
def touch (options : StoreOptions) (now : Int) (sid : String)
    (session : SessionData) (patchResult : OpResult) :
    List StoreEffect × List CallbackCall :=
  if options.disableTouch then
    ([], [.noArgs])
  else
    match patchResult with
    | .success => ([.patch sid "/ttl" (getTTL options now session)], [.noArgs])
    | .failure _ => ([.patch sid "/ttl" (getTTL options now session)], [.noArgs])

/-- The semantics of the single patch operation touch issues:
replacing the /ttl path of a stored document changes its ttl field and
nothing else. -/
def applyPatchReplaceTTL (item : Item) (value : Int) : Item :=
  { item with ttl := some value }

/-! Concrete fixtures used by witnesses and counterexamples. -/

/-- A captured configuration with the default fixed TTL policy. -/
def optsFixedDefault : StoreOptions :=
  { cosmosClient := 0, containerName := "sessions", databaseName := "db",
    disableTouch := false, ttl := .fixed 86400 }

/-- A captured configuration whose policy is a function returning 5. -/
def optsFn5 : StoreOptions :=
  { cosmosClient := 0, containerName := "sessions", databaseName := "db",
    disableTouch := false, ttl := .fn (fun _ => 5) }

/-- A captured configuration with touch disabled. -/
def optsDisabled : StoreOptions :=
  { cosmosClient := 0, containerName := "sessions", databaseName := "db",
    disableTouch := true, ttl := .fixed 5 }

/-- A session record with no cookie and no own id field. -/
def sessionPlain : SessionData :=
  { cookie := none, id := none, rest := [] }

/-- A session record whose cookie.expires is the given epoch
millisecond timestamp. -/
def sessionExpires (e : Int) : SessionData :=
  { cookie := some { originalMaxAge := none, expires := some e }, id := none, rest := [] }

/-- A session record that carries its own id field. -/
def sessionWithOwnId : SessionData :=
  { cookie := none, id := some "ownid", rest := [] }

/-- A static state in the Ready stage: options captured and a
singleton present. -/
def readyState : StaticState :=
  { options := some optsFixedDefault, store := some { instanceId := 0 }, nextId := 1 }

/-- Caller options that are valid under the validation of
initializeStore. -/
def validOpts : CosmosStoreOptions :=
  { cosmosClient := some 0, databaseName := "db", containerName := none,
    ttl := none, disableTouch := none }

/-- Caller options whose databaseName is the empty string, a
type-correct value that fails the run-time validation. -/
def optsEmptyDbName : CosmosStoreOptions :=
  { cosmosClient := some 0, databaseName := "", containerName := none,
    ttl := none, disableTouch := none }

/-- Caller options that set ttl explicitly to 0 and containerName to
the empty string. -/
def optsZeroTTL : CosmosStoreOptions :=
  { cosmosClient := some 0, databaseName := "db", containerName := some "",
    ttl := some (.fixed 0), disableTouch := none }

/-- A concrete stored document without a ttl field. -/
def itemNoTTL : Item :=
  { id := "doc1", cookie := none, rest := [("user", "u1")], ttl := none }

/-! Theorems. -/

/-- Math.ceil of an exact integer quotient with positive divisor: the
executable integer form used in the embedding equals the rational
ceiling. -/
theorem mathCeilDiv_eq_ceil (a : Int) :
    mathCeilDiv a 1000 = ⌈(a : ℚ) / 1000⌉ := by
  have hfloor := Rat.floor_intCast_div_natCast (-a) 1000
  have hceil : (⌈(a : ℚ) / 1000⌉ : Int) = -⌊(-(a : ℚ)) / 1000⌋ := by
    rw [← Int.ceil_neg, neg_div, neg_neg]
  rw [hceil]
  rw [show (-(a : ℚ)) / 1000 = (((-a : Int) : ℚ)) / (((1000 : ℕ) : ℚ)) by push_cast; ring]
  rw [hfloor]
  norm_num [mathCeilDiv]

/-- C1: getTTL applies a strict three-tier precedence: a function
policy is applied to the record and its value used verbatim, even when
cookie.expires is present; when the policy is not a function and
cookie.expires is present, the expiry-derived ceiling is used; when
neither applies, the configured fixed number is used, and the default
fixed number substituted for an absent ttl option is 86400. -/
theorem C1_getTTL_three_tier_precedence (o : StoreOptions) (now : Int)
    (s : SessionData) :
    (∀ f, o.ttl = .fn f → getTTL o now s = f s) ∧
    (∀ n c e, o.ttl = .fixed n → s.cookie = some c → c.expires = some e →
      getTTL o now s = mathCeilDiv (e - now) 1000) ∧
    (∀ n, o.ttl = .fixed n → (∀ c, s.cookie = some c → c.expires = none) →
      getTTL o now s = n) ∧
    jsOrTTL none (.fixed DEFAULT_TTL) = .fixed 86400 := by
  refine ⟨?_, ?_, ?_, rfl⟩
  · intro f hf
    simp [getTTL, hf]
  · intro n c e hn hc he
    simp [getTTL, hn, hc, he]
  · intro n hn hno
    match hc : s.cookie with
    | none => simp [getTTL, hn, hc]
    | some c => simp [getTTL, hn, hc, hno c hc]

/-- C1 witness: a function policy returning 5 beats an expiry one hour
ahead; a fixed policy with expires present yields the ceiling; a fixed
policy with no cookie yields the fixed number. -/
theorem C1_witness :
    getTTL optsFn5 0 (sessionExpires 3600000) = 5 ∧
    getTTL optsFixedDefault 1000 (sessionExpires 500) = mathCeilDiv (500 - 1000) 1000 ∧
    getTTL optsFixedDefault 0 sessionPlain = 86400 :=
  ⟨(C1_getTTL_three_tier_precedence optsFn5 0 (sessionExpires 3600000)).1 _ rfl,
   (C1_getTTL_three_tier_precedence optsFixedDefault 1000 (sessionExpires 500)).2.1
     86400 _ 500 rfl rfl rfl,
   (C1_getTTL_three_tier_precedence optsFixedDefault 0 sessionPlain).2.2.1
     86400 rfl (fun c hc => by cases hc)⟩

/-- C2: at a resolved TTL of exactly 0 (here cookie.expires equal to
now under a non-function policy), set does not redirect to destroy: the
JavaScript truthiness test on the TTL sends it to the create branch, so
the record is persisted with no ttl field; the destroy redirect happens
only for strictly negative TTL values. -/
theorem C2_set_zero_ttl_creates_instead_of_destroy :
    set optsFixedDefault 1000 "sid1" (sessionExpires 1000) .success .success =
      ([.create { id := "sid1",
                  cookie := some { originalMaxAge := none, expires := some 1000 },
                  rest := [], ttl := none }], []) ∧
    set optsFixedDefault 3000 "sid1" (sessionExpires 1000) .success .success =
      ([.deleteItem "sid1"], []) := by
  constructor
  · decide
  · decide

/-- C3 counterexample: with a Ready singleton present, a subsequent
initializeStore call whose options carry an empty databaseName (a
type-correct string) throws the validation error instead of returning
the existing instance, because validation runs before the singleton
check. -/
theorem C3_counterexample_second_call_can_throw :
    readyState.store = some { instanceId := 0 } ∧
    initializeStore optsEmptyDbName readyState = .error "Database name is required" :=
  ⟨rfl, rfl⟩

/-- C3 amended: after a successful initialization and before any
reset, every subsequent initializeStore call whose options pass the
entry validation (a cosmosClient present and a nonempty databaseName)
returns the identical store instance with the static state unchanged,
so the options of the subsequent call are otherwise ignored; calls
failing that validation throw instead of returning the instance. -/
theorem C3_initializeStore_idempotent_for_valid_options
    (s : StaticState) (st : CosmosStore) (o : CosmosStoreOptions)
    (c : CosmosClient) (hst : s.store = some st)
    (hc : o.cosmosClient = some c) (hdb : o.databaseName ≠ "") :
    initializeStore o s = .ok (st, s) := by
  unfold initializeStore
  rw [hc]
  simp [hdb, hst]

/-- C3 witness: a second call with fresh valid options on a Ready
state returns the existing instance and leaves the state unchanged. -/
theorem C3_witness :
    initializeStore validOpts readyState = .ok ({ instanceId := 0 }, readyState) :=
  C3_initializeStore_idempotent_for_valid_options readyState { instanceId := 0 }
    validOpts 0 rfl rfl (by decide)

/-- C4: the private constructor fails with an error whenever a Ready
singleton already exists or no configuration has been captured yet, so
direct construction in those states never yields an instance. -/
theorem C4_construct_guard (s : StaticState)
    (h : s.store.isSome = true ∨ s.options = none) :
    ∃ msg, construct s = .error msg := by
  by_cases hs : s.store.isSome
  · refine ⟨"Cosmos Store has already been initialized. Please use CosmosStore.initializeStore()", ?_⟩
    simp [construct, hs]
  · rcases h with h | h
    · exact absurd h hs
    · refine ⟨"Cannot initialize Cosmos Store. Please use CosmosStore.initializeStore()", ?_⟩
      simp [construct, hs, h]

/-- C4 witness: construction fails on a Ready state, and also on the
pristine state with no captured configuration. -/
theorem C4_witness :
    ∃ msg, construct readyState = .error msg :=
  C4_construct_guard readyState (Or.inl rfl)

/-- C5: with a non-function policy and cookie.expires present, the
resolved TTL equals the ceiling of the difference of the expiry and
current epoch milliseconds divided by 1000, and the resolved value can
be zero and can be negative. -/
theorem C5_getTTL_expiry_ceiling (o : StoreOptions) (now : Int)
    (s : SessionData) (n e : Int) (c : Cookie) (hn : o.ttl = .fixed n)
    (hc : s.cookie = some c) (he : c.expires = some e) :
    getTTL o now s = ⌈((e : ℚ) - (now : ℚ)) / 1000⌉ ∧
    getTTL optsFixedDefault 1000 (sessionExpires 500) = 0 ∧
    getTTL optsFixedDefault 2000 (sessionExpires 0) < 0 := by
  refine ⟨?_, by decide, by decide⟩
  have hv : getTTL o now s = mathCeilDiv (e - now) 1000 := by
    simp [getTTL, hn, hc, he]
  rw [hv, mathCeilDiv_eq_ceil (e - now)]
  congr 1
  push_cast
  ring

/-- C5 witness: an expiry 1500 ms after a current time of 0 resolves
to the ceiling of 1.5, namely 2 seconds. -/
theorem C5_witness :
    getTTL optsFixedDefault 0 (sessionExpires 1500) = ⌈((1500 : ℚ) - (0 : ℚ)) / 1000⌉ ∧
    getTTL optsFixedDefault 1000 (sessionExpires 500) = 0 ∧
    getTTL optsFixedDefault 2000 (sessionExpires 0) < 0 :=
  C5_getTTL_expiry_ceiling optsFixedDefault 0 (sessionExpires 1500) 86400 1500
    { originalMaxAge := none, expires := some 1500 } rfl rfl rfl

/-- C6: destroy delivers a failing backing delete through the callback
error argument and nothing escapes the operation, but on a successful
delete the callback is never invoked: the invocation sits only in the
catch branch. -/
theorem C6_destroy_callback_only_on_failure :
    destroy "abc" .success = ([.deleteItem "abc"], []) ∧
    destroy "abc" (.failure "boom") = ([.deleteItem "abc"], [.withError "boom"]) := by
  constructor
  · decide
  · decide

/-- C7: touch always invokes the caller callback exactly once with no
arguments, whatever the patch outcome, and when touch is disabled it
issues no backing-store request at all. -/
theorem C7_touch_swallows_errors (o : StoreOptions) (now : Int)
    (sid : String) (s : SessionData) (r : OpResult) :
    (touch o now sid s r).2 = [.noArgs] ∧
    (o.disableTouch = true → touch o now sid s r = ([], [.noArgs])) := by
  constructor
  · unfold touch
    by_cases h : o.disableTouch <;> cases r <;> simp [h]
  · intro h
    simp [touch, h]

/-- C7 witness: with touch disabled, even a failing patch oracle is
never consulted and the callback fires with no arguments. -/
theorem C7_witness :
    (touch optsDisabled 0 "sid1" sessionPlain (.failure "boom")).2 = [.noArgs] ∧
    touch optsDisabled 0 "sid1" sessionPlain (.failure "boom") = ([], [.noArgs]) :=
  ⟨(C7_touch_swallows_errors optsDisabled 0 "sid1" sessionPlain (.failure "boom")).1,
   (C7_touch_swallows_errors optsDisabled 0 "sid1" sessionPlain (.failure "boom")).2 rfl⟩

/-- C8: with touch enabled, the only backing-store request touch
issues is one patch replacing the /ttl path with the freshly
recomputed TTL, and applying that patch to a stored document changes
its ttl field and leaves the id, cookie and remaining fields
unchanged. -/
theorem C8_touch_patches_only_ttl (o : StoreOptions) (now : Int)
    (sid : String) (s : SessionData) (r : OpResult)
    (h : o.disableTouch = false) :
    (touch o now sid s r).1 = [.patch sid "/ttl" (getTTL o now s)] ∧
    ∀ (d : Item) (v : Int),
      (applyPatchReplaceTTL d v).id = d.id ∧
      (applyPatchReplaceTTL d v).cookie = d.cookie ∧
      (applyPatchReplaceTTL d v).rest = d.rest ∧
      (applyPatchReplaceTTL d v).ttl = some v := by
  constructor
  · cases r <;> simp [touch, h]
  · intro d v
    exact ⟨rfl, rfl, rfl, rfl⟩

/-- C8 witness: an enabled touch issues exactly the single /ttl patch,
and patching a concrete document preserves its other fields. -/
theorem C8_witness :
    (touch optsFixedDefault 0 "sid1" (sessionExpires 1500) .success).1 =
      [.patch "sid1" "/ttl" (getTTL optsFixedDefault 0 (sessionExpires 1500))] ∧
    (applyPatchReplaceTTL itemNoTTL 7).cookie = itemNoTTL.cookie ∧
    (applyPatchReplaceTTL itemNoTTL 7).rest = itemNoTTL.rest ∧
    (applyPatchReplaceTTL itemNoTTL 7).id = itemNoTTL.id :=
  ⟨(C8_touch_patches_only_ttl optsFixedDefault 0 "sid1" (sessionExpires 1500) .success rfl).1,
   ((C8_touch_patches_only_ttl optsFixedDefault 0 "sid1" (sessionExpires 1500) .success rfl).2 itemNoTTL 7).2.1,
   ((C8_touch_patches_only_ttl optsFixedDefault 0 "sid1" (sessionExpires 1500) .success rfl).2 itemNoTTL 7).2.2.1,
   ((C8_touch_patches_only_ttl optsFixedDefault 0 "sid1" (sessionExpires 1500) .success rfl).2 itemNoTTL 7).1⟩

/-- C9: the document set persists takes its id from the record itself
when the record carries an own id field, because the record is spread
over the object after id is set to sid; for records without an id
field the persisted id equals sid. Shown on the upsert path for a
positive resolved TTL. -/
theorem C9_set_record_id_overrides_sid (o : StoreOptions) (now : Int)
    (sid : String) (s : SessionData) (w d : OpResult) (j : String)
    (hj : s.id = some j) (hpos : 0 < getTTL o now s) :
    (set o now sid s w d).1 =
      [.upsert { id := j, cookie := s.cookie, rest := s.rest,
                 ttl := some (getTTL o now s) }] ∧
    (mkSessionItem sid s).id = j ∧
    (∀ s2 : SessionData, s2.id = none → (mkSessionItem sid s2).id = sid) := by
  have ht : getTTL o now s ≠ 0 := by omega
  have ht2 : ¬ getTTL o now s ≤ 0 := by omega
  refine ⟨?_, ?_, ?_⟩
  · cases w <;> simp [set, ht, ht2, mkSessionItem, hj]
  · simp [mkSessionItem, hj]
  · intro s2 h2
    simp [mkSessionItem, h2]

/-- C9 witness: a record carrying id ownid set under sid1 is upserted
with id ownid, while a record with no id field yields sid1. -/
theorem C9_witness :
    (set optsFixedDefault 0 "sid1" sessionWithOwnId .success .success).1 =
      [.upsert { id := "ownid", cookie := none, rest := [],
                 ttl := some (getTTL optsFixedDefault 0 sessionWithOwnId) }] ∧
    (mkSessionItem "sid1" sessionWithOwnId).id = "ownid" ∧
    (mkSessionItem "sid1" sessionPlain).id = "sid1" :=
  ⟨(C9_set_record_id_overrides_sid optsFixedDefault 0 "sid1" sessionWithOwnId
      .success .success "ownid" rfl (by decide)).1,
   (C9_set_record_id_overrides_sid optsFixedDefault 0 "sid1" sessionWithOwnId
      .success .success "ownid" rfl (by decide)).2.1,
   (C9_set_record_id_overrides_sid optsFixedDefault 0 "sid1" sessionWithOwnId
      .success .success "ownid" rfl (by decide)).2.2 sessionPlain rfl⟩

/-- C10: updateOptions replaces a falsy configured ttl (an explicit
fixed 0) with the default 86400, so no captured configuration ever
holds a fixed TTL of 0, and replaces an empty-string containerName
with the default container name. -/
theorem C10_updateOptions_falsy_defaults (o : CosmosStoreOptions)
    (c : CosmosClient) :
    (o.ttl = some (.fixed 0) → (updateOptions o c).ttl = .fixed 86400) ∧
    (updateOptions o c).ttl ≠ TTLPolicy.fixed 0 ∧
    (o.containerName = some "" →
      (updateOptions o c).containerName = DEFAULT_CONTAINER_NAME) ∧
    DEFAULT_TTL = 86400 ∧ DEFAULT_CONTAINER_NAME = "sessions" := by
  refine ⟨?_, ?_, ?_, rfl, rfl⟩
  · intro h
    simp [updateOptions, jsOrTTL, h, TTLPolicy.jsTruthy, DEFAULT_TTL]
  · match hp : o.ttl with
    | none =>
      simp [updateOptions, jsOrTTL, hp, DEFAULT_TTL]
    | some (.fixed n) =>
      by_cases hn : n = 0
      · simp [updateOptions, jsOrTTL, hp, hn, TTLPolicy.jsTruthy, DEFAULT_TTL]
      · simp [updateOptions, jsOrTTL, hp, TTLPolicy.jsTruthy, hn]
    | some (.fn f) =>
      simp [updateOptions, jsOrTTL, hp, TTLPolicy.jsTruthy]
  · intro h
    simp [updateOptions, jsOrString, h]

/-- C10 witness: options with ttl 0 and an empty containerName capture
the defaults 86400 and sessions. -/
theorem C10_witness :
    (updateOptions optsZeroTTL 0).ttl = .fixed 86400 ∧
    (updateOptions optsZeroTTL 0).containerName = DEFAULT_CONTAINER_NAME :=
  ⟨(C10_updateOptions_falsy_defaults optsZeroTTL 0).1 rfl,
   (C10_updateOptions_falsy_defaults optsZeroTTL 0).2.2.1 rfl⟩

end ConnectCosmos
